import Mathlib

/-!
Shallow embedding of the MCP TypeScript client (repository `MahdadGhasemian/mcp`).

The repository contains three versions of the interactive MCP client:
* a two-provider client (`src/mcp-client-typescript/index.ts`, first document):
  Anthropic and Ollama query processing, dispatched by the `LLM_PROVIDER`
  environment variable;
* an Ollama-only client (second document in the same file), whose
  `processQuery` is the Variant-B processing pass with the caught follow-up
  failure;
* a three-provider client (embedded in `src/README.md`): Anthropic, Ollama and
  Gemini, with per-provider configuration checks in the constructor and a
  three-way dispatch in `chatLoop`.

External collaborators (the Anthropic/Ollama/Gemini SDKs and the MCP client)
are modelled as oracle functions supplied in an environment record; each
processing pass is a pure function of the query and that environment, and it
additionally returns the trace of outgoing requests (LLM exchanges and tool
invocations), so that round-trip counts, attached tool declarations and
request histories can be stated and proved.
-/

/-- A JSON value, as carried in tool schemas, tool arguments and tool results.
Numbers are modelled as integers (no claim depends on non-integral numbers). -/
inductive Json where
  | null : Json
  | bool (b : Bool) : Json
  | num (n : Int) : Json
  | str (s : String) : Json
  | arr (elems : List Json) : Json
  | obj (fields : List (String × Json)) : Json

/-- Escaping used by `JSON.stringify` for the characters that the claims can
meet (quote and backslash). -/
def jsonEscape (s : String) : String :=
  String.join (s.data.map (fun c =>
    if c = '"' then "\\\"" else if c = '\\' then "\\\\" else String.singleton c))

mutual

/-- `JSON.stringify` (compact form, no spaces), as used for tool-call
annotations and for folding tool results into Ollama/Gemini messages. -/
def Json.stringify : Json → String
  | .null => "null"
  | .bool true => "true"
  | .bool false => "false"
  | .num n => toString n
  | .str s => "\"" ++ jsonEscape s ++ "\""
  | .arr elems => "[" ++ Json.stringifyElems elems ++ "]"
  | .obj fields => "\x7b" ++ Json.stringifyFields fields ++ "\x7d"

/-- Comma-separated serialization of a JSON array's elements. -/
def Json.stringifyElems : List Json → String
  | [] => ""
  | [j] => Json.stringify j
  | j :: rest => Json.stringify j ++ "," ++ Json.stringifyElems rest

/-- Comma-separated serialization of a JSON object's fields. -/
def Json.stringifyFields : List (String × Json) → String
  | [] => ""
  | [(k, v)] => "\"" ++ jsonEscape k ++ "\":" ++ Json.stringify v
  | (k, v) :: rest =>
      "\"" ++ jsonEscape k ++ "\":" ++ Json.stringify v ++ "," ++ Json.stringifyFields rest

end

/-- `JSON.stringify` applied to a possibly-`undefined` value interpolated into
a template literal: `undefined` renders as the string `undefined`. -/
def stringifyOpt : Option Json → String
  | none => "undefined"
  | some j => Json.stringify j

/-- Field lookup on a JSON object (`x.properties` style access); `none` models
JavaScript `undefined`. -/
def Json.getField : Json → String → Option Json
  | .obj fields, key => (fields.find? (fun kv => kv.fst = key)).map (·.snd)
  | _, _ => none

/-- One entry of the tool manifest returned by `mcp.listTools()`:
`{name, description, inputSchema}`.  `description` is optional in the MCP
schema, hence `Option`. -/
structure ToolManifestEntry where
  name : String
  description : Option String
  inputSchema : Json

/-- Anthropic tool declaration `{name, description, input_schema}`. -/
structure AnthropicTool where
  name : String
  description : Option String
  input_schema : Json

/-- The `function` part of an Ollama tool declaration. -/
structure OllamaFunctionDecl where
  name : String
  description : Option String
  parameters : Json

/-- Ollama tool declaration: a `type` tag (the string `function`) plus the
function declaration. -/
structure OllamaTool where
  type : String
  function : OllamaFunctionDecl

/-- The `parameters` schema of a Gemini function declaration:
`{type: Type.OBJECT, properties: inputSchema.properties}`. -/
structure GeminiSchema where
  type : String
  properties : Option Json

/-- Gemini `FunctionDeclaration` as built in `connectToServer`. -/
structure FunctionDeclaration where
  name : String
  description : Option String
  parameters : GeminiSchema

/-- Tool Schema Adapter, Anthropic shape (`connectToServer`, ANTHROPIC branch):
maps each manifest entry to `{name, description, input_schema: inputSchema}`. -/
def anthropicToolsOf (manifest : List ToolManifestEntry) : List AnthropicTool :=
  manifest.map (fun tool => { name := tool.name, description := tool.description,
                              input_schema := tool.inputSchema })

/-- Tool Schema Adapter, Ollama shape (`connectToServer`, OLLAMA branch):
maps each manifest entry to
a declaration whose `type` tag is the string `function` and whose function
part carries `name`, `description` and `parameters: inputSchema`. -/
def ollamaToolsOf (manifest : List ToolManifestEntry) : List OllamaTool :=
  manifest.map (fun tool => { type := "function",
                              function := { name := tool.name,
                                            description := tool.description,
                                            parameters := tool.inputSchema } })

/-- Tool Schema Adapter, Gemini shape (`connectToServer`, GEMINI branch):
maps each manifest entry to a `FunctionDeclaration` whose `parameters` is
`{type: Type.OBJECT, properties: inputSchema.properties}`. -/
def geminiToolsOf (manifest : List ToolManifestEntry) : List FunctionDeclaration :=
  manifest.map (fun tool => { name := tool.name, description := tool.description,
                              parameters := { type := "OBJECT",
                                              properties := tool.inputSchema.getField "properties" } })

/-- Failures raised by the external collaborators (MCP tool calls, LLM
backends), or by a JavaScript runtime type error. -/
inductive Err where
  | toolFailure (msg : String) : Err
  | providerFailure (msg : String) : Err
  | typeError : Err
deriving DecidableEq, Repr

/-- The result of `mcp.callTool`: an opaque `content` payload. -/
structure ToolResult where
  content : Json

/-- The tool-call annotation pushed into the output:
`[Calling tool NAME with args JSON.stringify(args)]`. -/
def callLabel (name : String) (args : Option Json) : String :=
  "[Calling tool " ++ name ++ " with args " ++ stringifyOpt args ++ "]"

/-! ## Variant A: Anthropic (`processQueryAnthropic`) -/

/-- One Anthropic message `{role, content}`.  The initial user message carries
the query string; tool results are pushed with `content: result.content`
(the `as string` cast in the source does not convert the payload). -/
structure AnthropicMessage where
  role : String
  content : Json

/-- One block of an Anthropic response's `content` array.  Blocks of a type
other than `text` and `tool_use` are skipped by the source's `if`/`else if`. -/
inductive ContentBlock where
  | text (t : String) : ContentBlock
  | toolUse (name : String) (input : Option Json) : ContentBlock
  | otherBlock : ContentBlock

/-- An Anthropic `messages.create` response (its `content` array). -/
structure AnthropicResponse where
  content : List ContentBlock

/-- The external collaborators of `processQueryAnthropic`: the Anthropic
`messages.create` call (given the message history and the optionally attached
tool declarations) and the MCP `callTool` operation. -/
structure AnthropicEnv where
  messagesCreate : List AnthropicMessage → Option (List AnthropicTool) → Except Err AnthropicResponse
  callTool : String → Option Json → Except Err ToolResult

/-- One outgoing request recorded while processing a query on the Anthropic
path. -/
inductive AnthropicEvent where
  | llm (messages : List AnthropicMessage) (tools : Option (List AnthropicTool)) : AnthropicEvent
  | toolCall (name : String) (args : Option Json) : AnthropicEvent

/-- The per-block loop of `processQueryAnthropic`: text blocks are pushed onto
`finalText`; each `tool_use` block invokes the tool, pushes the annotation,
appends the tool result to `messages`, and issues one follow-up
`messages.create` with no `tools` attached, pushing the first content block's
text when that block is a text block (the empty string otherwise; an empty
`content` array makes `response.content[0].type` throw).  Returns the trace of
outgoing requests and, on success, the accumulated `finalText` (accumulated in
reverse in `acc`). -/
def anthropicBlocks (env : AnthropicEnv) :
    List ContentBlock → List AnthropicMessage → List String →
    List AnthropicEvent × Except Err (List String)
  | [], _, acc => ([], .ok acc.reverse)
  | .otherBlock :: rest, messages, acc => anthropicBlocks env rest messages acc
  | .text t :: rest, messages, acc => anthropicBlocks env rest messages (t :: acc)
  | .toolUse name args :: rest, messages, acc =>
    match env.callTool name args with
    | .error e => ([.toolCall name args], .error e)
    | .ok result =>
      let messages2 := messages ++ [{ role := "user", content := result.content }]
      match env.messagesCreate messages2 none with
      | .error e => ([.toolCall name args, .llm messages2 none], .error e)
      | .ok response2 =>
        match response2.content.head? with
        | none => ([.toolCall name args, .llm messages2 none], .error .typeError)
        | some firstBlock =>
          let followText := match firstBlock with
            | .text t => t
            | _ => ""
          let r := anthropicBlocks env rest messages2 (followText :: callLabel name args :: acc)
          (.toolCall name args :: .llm messages2 none :: r.1, r.2)

/-- `processQueryAnthropic(query)`: seeds the message list with the user query,
issues one `messages.create` with the session's tool declarations attached,
then runs the per-block loop and joins `finalText` with newlines.  Returns the
request trace alongside the result. -/
def processQueryAnthropic (env : AnthropicEnv) (anthropicTools : List AnthropicTool)
    (query : String) : List AnthropicEvent × Except Err String :=
  let messages : List AnthropicMessage := [{ role := "user", content := .str query }]
  match env.messagesCreate messages (some anthropicTools) with
  | .error e => ([.llm messages (some anthropicTools)], .error e)
  | .ok response =>
    let r := anthropicBlocks env response.content messages []
    (.llm messages (some anthropicTools) :: r.1,
      r.2.map (fun finalText => String.intercalate "\n" finalText))

/-! ## Variant B: Ollama (`processQueryOllama` / the Ollama-only client's
`processQuery`; both bodies are identical) -/

/-- One Ollama chat message `{role, content}`; contents are strings (tool
results are folded in as `JSON.stringify(result.content)`). -/
structure OllamaMessage where
  role : String
  content : String
deriving DecidableEq, Repr

/-- The `function` part of an Ollama tool call in a response. -/
structure OllamaToolCallFunction where
  name : String
  arguments : Option Json

/-- One tool call of an Ollama response message. -/
structure OllamaToolCall where
  function : OllamaToolCallFunction

/-- An Ollama response's `message`: its text `content` and the possibly-absent
`tool_calls` array (`none` models an absent/undefined field; `some []` models
a present empty array, which JavaScript treats as truthy). -/
structure OllamaResponseMessage where
  content : String
  tool_calls : Option (List OllamaToolCall)

/-- An Ollama `chat` response. -/
structure OllamaResponse where
  message : OllamaResponseMessage

/-- The external collaborators of the Ollama processing pass: the `ollama.chat`
call (message history plus optionally attached tool declarations) and the MCP
`callTool` operation. -/
structure OllamaEnv where
  chat : List OllamaMessage → Option (List OllamaTool) → Except Err OllamaResponse
  callTool : String → Option Json → Except Err ToolResult

/-- One outgoing request recorded while processing a query on the Ollama path. -/
inductive OllamaEvent where
  | chat (messages : List OllamaMessage) (tools : Option (List OllamaTool)) : OllamaEvent
  | toolCall (name : String) (args : Option Json) : OllamaEvent

/-- The fixed apology text pushed when the Variant-B follow-up request fails
(the source pushes `"\nEn error occured.\n"` and then `"\n"`). -/
def ollamaApology : String := "\nEn error occured.\n"

/-- The per-tool-call loop of the Ollama processing pass: each tool call
invokes the tool, pushes the annotation, appends `JSON.stringify(result.content)`
to `messages` as a user turn, and issues one follow-up `ollama.chat` with no
tools attached inside a `try`: on success the follow-up's message content is
pushed, on failure the fixed apology text and `"\n"` are pushed and the loop
continues. -/
def ollamaCalls (env : OllamaEnv) :
    List OllamaToolCall → List OllamaMessage → List String →
    List OllamaEvent × Except Err (List String)
  | [], _, acc => ([], .ok acc.reverse)
  | call :: rest, messages, acc =>
    let name := call.function.name
    let args := call.function.arguments
    match env.callTool name args with
    | .error e => ([.toolCall name args], .error e)
    | .ok result =>
      let messages2 := messages ++ [{ role := "user", content := Json.stringify result.content }]
      match env.chat messages2 none with
      | .ok response2 =>
        let r := ollamaCalls env rest messages2 (response2.message.content :: callLabel name args :: acc)
        (.toolCall name args :: .chat messages2 none :: r.1, r.2)
      | .error _ =>
        let r := ollamaCalls env rest messages2 ("\n" :: ollamaApology :: callLabel name args :: acc)
        (.toolCall name args :: .chat messages2 none :: r.1, r.2)

/-- The Variant-B processing pass (`processQueryOllama` in the two-provider
client; `processQuery` in the Ollama-only client — the bodies coincide):
seeds the message list with the user query, issues one `ollama.chat` with the
session's tool declarations attached; if `tool_calls` is absent the message
content is the output, otherwise the per-tool-call loop runs; `finalText` is
joined with newlines. -/
def processQueryOllama (env : OllamaEnv) (ollamaTools : List OllamaTool)
    (query : String) : List OllamaEvent × Except Err String :=
  let messages : List OllamaMessage := [{ role := "user", content := query }]
  match env.chat messages (some ollamaTools) with
  | .error e => ([.chat messages (some ollamaTools)], .error e)
  | .ok response =>
    match response.message.tool_calls with
    | none => ([.chat messages (some ollamaTools)], .ok response.message.content)
    | some calls =>
      let r := ollamaCalls env calls messages []
      (.chat messages (some ollamaTools) :: r.1,
        r.2.map (fun finalText => String.intercalate "\n" finalText))

/-! ## Variant C: Gemini (`processQueryGemini`, three-provider client) -/

/-- One part of a Gemini content turn (`{text: ...}`; `none` models an absent
`text` field). -/
structure GeminiPart where
  text : Option String
deriving DecidableEq, Repr

/-- One turn of a Gemini chat history (`{role, parts}`). -/
structure GeminiTurn where
  role : String
  parts : List GeminiPart
deriving DecidableEq, Repr

/-- A function call of a Gemini response. -/
structure GeminiFunctionCall where
  name : String
  args : Option Json

/-- The `content` of a Gemini response candidate. -/
structure GeminiContent where
  parts : Option (List GeminiPart)

/-- One candidate of a Gemini response. -/
structure GeminiCandidate where
  content : Option GeminiContent

/-- A Gemini `sendMessage` response: the `functionCalls` accessor, the
`candidates` array and the `text` accessor (`none` models undefined). -/
structure GeminiResponse where
  functionCalls : Option (List GeminiFunctionCall)
  candidates : Option (List GeminiCandidate)
  text : Option String

/-- The external collaborators of `processQueryGemini`: the chat session's
`sendMessage` (modelled as a function of the session history accumulated so
far and the new message — the Gemini SDK's chat object sends its recorded
history with each message) and the MCP `callTool` operation. -/
structure GeminiEnv where
  send : List GeminiTurn → String → Except Err GeminiResponse
  callTool : String → Option Json → Except Err ToolResult

/-- One outgoing request recorded while processing a query on the Gemini path. -/
inductive GeminiEvent where
  | send (history : List GeminiTurn) (message : String) : GeminiEvent
  | toolCall (name : String) (args : Option Json) : GeminiEvent

/-- The fixed priming history passed to `chats.create` in `processQueryGemini`
(the `chatOptions.history` literal: four turns, two user and two model). -/
def primingHistory : List GeminiTurn :=
  [{ role := "user", parts := [{ text := some "Hi there!" }] },
   { role := "model", parts := [{ text := some "Great to meet you. What would you like to know?" }] },
   { role := "user",
     parts := [{ text := some "I\x27ve created two usfull functions \x27get-alerts\x27, \x27get-forecast\x27 which is used to get weather conditions!" }] },
   { role := "model", parts := [{ text := some "Thats Great!" }] }]

/-- A user turn as recorded in the chat session for a sent message. -/
def geminiUserTurn (message : String) : GeminiTurn :=
  { role := "user", parts := [{ text := some message }] }

/-- The model turn recorded in the chat session for a response (the session
bookkeeping lives in the external Gemini SDK; recorded here as the response's
text). -/
def geminiModelTurn (response : GeminiResponse) : GeminiTurn :=
  { role := "model", parts := [{ text := response.text }] }

/-- The no-function-call branch of `processQueryGemini`:
`const parts = response.candidates ? response.candidates[0].content?.parts : [{text: ""}];`
`const text = parts ? parts[0].text : ''`.  An undefined `candidates` yields
`""`; an empty `candidates` or empty `parts` array makes the member access on
`undefined` throw; an absent `parts[0].text` is `undefined`, which
`finalText.join` renders as `""`. -/
def geminiExtractText (response : GeminiResponse) : Except Err String :=
  match response.candidates with
  | none => .ok ""
  | some candidates =>
    match candidates.head? with
    | none => .error .typeError
    | some candidate =>
      match candidate.content.bind (fun content => content.parts) with
      | none => .ok ""
      | some [] => .error .typeError
      | some (part :: _) => .ok (part.text.getD "")

/-- The per-function-call loop of `processQueryGemini`: each call invokes the
tool, pushes the annotation, and sends `JSON.stringify(result.content)` into
the same chat session (whose history has accumulated the query's turns),
pushing the follow-up response's `text` (or `""`). -/
def geminiCalls (env : GeminiEnv) :
    List GeminiFunctionCall → List GeminiTurn → List String →
    List GeminiEvent × Except Err (List String)
  | [], _, acc => ([], .ok acc.reverse)
  | call :: rest, history, acc =>
    match env.callTool call.name call.args with
    | .error e => ([.toolCall call.name call.args], .error e)
    | .ok result =>
      let message := Json.stringify result.content
      match env.send history message with
      | .error e => ([.toolCall call.name call.args, .send history message], .error e)
      | .ok response2 =>
        let history2 := history ++ [geminiUserTurn message, geminiModelTurn response2]
        let r :=
          geminiCalls env rest history2
            ((response2.text.getD "") :: callLabel call.name call.args :: acc)
        (.toolCall call.name call.args :: .send history message :: r.1, r.2)

/-- `processQueryGemini(query)`: creates a **fresh** chat session whose history
is the fixed `primingHistory` literal, sends the query into it, then either
runs the per-function-call loop (when `functionCalls` is a nonempty array) or
extracts the first part's text of the first candidate; `finalText` is joined
with newlines. -/
def processQueryGemini (env : GeminiEnv) (query : String) :
    List GeminiEvent × Except Err String :=
  let history0 := primingHistory
  match env.send history0 query with
  | .error e => ([.send history0 query], .error e)
  | .ok response =>
    let history1 := history0 ++ [geminiUserTurn query, geminiModelTurn response]
    let r :=
      match response.functionCalls with
      | some (call :: rest) => geminiCalls env (call :: rest) history1 []
      | _ => ([], (geminiExtractText response).map (fun t => [t]))
    (.send history0 query :: r.1,
      r.2.map (fun finalText => String.intercalate "\n" finalText))

/-! ## Configuration checks and the interactive chat loops -/

/-- The environment-style configuration read at startup (`none` models an
unset variable). -/
structure EnvConfig where
  llmProvider : Option String
  anthropicApiKey : Option String
  anthropicModel : Option String
  ollamaModel : Option String
  geminiApiKey : Option String

/-- JavaScript falsiness of a string-valued environment variable (`!x`):
unset (`undefined`) or the empty string. -/
def isFalsyStr : Option String → Bool
  | none => true
  | some s => s.isEmpty

/-- The module-level configuration checks of the two-provider client
(`index.ts` top level): throws when `LLM_PROVIDER === "OLLAMA"` and
`OLLAMA_MODEL` is falsy, or `LLM_PROVIDER === "ANTHROPIC"` and
`ANTHROPIC_API_KEY` (resp. `ANTHROPIC_MODEL`) is falsy. -/
def moduleConfigCheck (cfg : EnvConfig) : Except String Unit :=
  if cfg.llmProvider = some "OLLAMA" ∧ isFalsyStr cfg.ollamaModel = true then
    .error "OLLAMA_MODEL is not set"
  else if cfg.llmProvider = some "ANTHROPIC" ∧ isFalsyStr cfg.anthropicApiKey = true then
    .error "ANTHROPIC_API_KEY is not set"
  else if cfg.llmProvider = some "ANTHROPIC" ∧ isFalsyStr cfg.anthropicModel = true then
    .error "ANTHROPIC_MODEL is not set"
  else
    .ok ()

/-- The constructor checks of the three-provider client (`MCPClient`
constructor in the README listing): for the Anthropic provider
`ANTHROPIC_API_KEY` and `ANTHROPIC_MODEL` are required, for the Ollama
provider `OLLAMA_MODEL`, for the Gemini provider `GEMINI_API_KEY`; any other
(or unset) selector passes without a check. -/
def constructorConfigCheck (cfg : EnvConfig) : Except String Unit :=
  if cfg.llmProvider = some "ANTHROPIC" ∧ isFalsyStr cfg.anthropicApiKey = true then
    .error "ANTHROPIC_API_KEY is required when using the Anthropic provider."
  else if cfg.llmProvider = some "ANTHROPIC" ∧ isFalsyStr cfg.anthropicModel = true then
    .error "ANTHROPIC_MODEL is required when using the Anthropic provider."
  else if cfg.llmProvider = some "OLLAMA" ∧ isFalsyStr cfg.ollamaModel = true then
    .error "OLLAMA_MODEL is required when using the Ollama provider."
  else if cfg.llmProvider = some "GEMINI" ∧ isFalsyStr cfg.geminiApiKey = true then
    .error "GEMINI_API_KEY is required when using the Gemini provider."
  else
    .ok ()

/-- JavaScript `toLowerCase` on the line read from the prompt (modelled as a
character-wise lowering, which agrees with `toLowerCase` on the ASCII inputs
involved). -/
def jsToLower (s : String) : String :=
  String.mk (s.data.map Char.toLower)

/-- The `chatLoop` of the Ollama-only client, over a list of input lines:
stops on a case-insensitive `quit`; each other line is processed and its
response collected; a processing failure propagates out of the `while` loop
(there is no `try`/`catch` around `processQuery`), ending the session with
that error and leaving the remaining lines unread.  Returns the collected
responses and the terminal error, if any. -/
def chatLoop (process : String → Except Err String) :
    List String → List String × Option Err
  | [] => ([], none)
  | line :: rest =>
    if jsToLower line = "quit" then ([], none)
    else
      match process line with
      | .error e => ([], some e)
      | .ok response =>
        let r := chatLoop process rest
        (response :: r.1, r.2)

/-- The `chatLoop` of the two-provider client: identical to `chatLoop` except
that each line is dispatched by
`LLM_PROVIDER === "ANTHROPIC" ? processQueryAnthropic(...) : processQueryOllama(...)`. -/
def chatLoopTwoProvider (provider : Option String)
    (anthropicProcess ollamaProcess : String → Except Err String) :
    List String → List String × Option Err
  | [] => ([], none)
  | line :: rest =>
    if jsToLower line = "quit" then ([], none)
    else
      match (if provider = some "ANTHROPIC" then anthropicProcess line
             else ollamaProcess line) with
      | .error e => ([], some e)
      | .ok response =>
        let r := chatLoopTwoProvider provider anthropicProcess ollamaProcess rest
        (response :: r.1, r.2)

/-! ## Counting helpers for round-trip and bridge-invocation bounds -/

/-- Number of `tool_use` blocks (tool-call indicators) in an Anthropic
response's content. -/
def toolUseCount (blocks : List ContentBlock) : Nat :=
  blocks.countP (fun b => match b with | .toolUse _ _ => true | _ => false)

/-- Number of LLM requests in an Anthropic-path trace. -/
def anthropicLlmCount (trace : List AnthropicEvent) : Nat :=
  trace.countP (fun e => match e with | .llm _ _ => true | _ => false)

/-- Number of bridge invocations in an Anthropic-path trace. -/
def anthropicBridgeCount (trace : List AnthropicEvent) : Nat :=
  trace.countP (fun e => match e with | .toolCall _ _ => true | _ => false)

/-- Number of LLM requests in an Ollama-path trace. -/
def ollamaChatCount (trace : List OllamaEvent) : Nat :=
  trace.countP (fun e => match e with | .chat _ _ => true | _ => false)

/-- Number of bridge invocations in an Ollama-path trace. -/
def ollamaBridgeCount (trace : List OllamaEvent) : Nat :=
  trace.countP (fun e => match e with | .toolCall _ _ => true | _ => false)

/-- Number of tool-call indicators in the first Ollama response: the length of
its `tool_calls` array, zero when absent. -/
def ollamaIndicatorCount (response : OllamaResponse) : Nat :=
  (response.message.tool_calls.getD []).length

/-- The texts of the text blocks of an Anthropic response, in block order. -/
def textBlocks (blocks : List ContentBlock) : List String :=
  blocks.filterMap (fun b => match b with | .text t => some t | _ => none)

/-- A mocked Anthropic backend that always answers with the plain text `Hi!`
and a bridge that always fails (scenario 2: the bridge must never be reached). -/
def plainTextEnvA : AnthropicEnv where
  messagesCreate := fun _ _ => .ok { content := [.text "Hi!"] }
  callTool := fun _ _ => .error (.toolFailure "bridge must not be invoked")

/-- A mocked Ollama backend that always answers with the plain text `Hi!` and
no `tool_calls`, with a bridge that always fails. -/
def plainTextEnvO : OllamaEnv where
  chat := fun _ _ => .ok { message := { content := "Hi!", tool_calls := none } }
  callTool := fun _ _ => .error (.toolFailure "bridge must not be invoked")

/-- The canned plain-text Gemini response `Hi!` with no function calls. -/
def plainTextResponseG : GeminiResponse :=
  { functionCalls := none,
    candidates := some [{ content := some { parts := some [{ text := some "Hi!" }] } }],
    text := some "Hi!" }

/-- A mocked Gemini backend that always answers with the plain text `Hi!` and
no function calls, with a bridge that always fails. -/
def plainTextEnvG : GeminiEnv where
  send := fun _ _ => .ok plainTextResponseG
  callTool := fun _ _ => .error (.toolFailure "bridge must not be invoked")

/-- The `calculate_sum` tool-use arguments `{a: 2, b: 2}`. -/
def sumArgs : Json := .obj [("a", .num 2), ("b", .num 2)]

/-- First Anthropic response of the `calculate_sum` scenario: one `tool_use`
block. -/
def sumFirstResponseA : AnthropicResponse :=
  { content := [.toolUse "calculate_sum" (some sumArgs)] }

/-- First Ollama response of the `calculate_sum` scenario: one tool call. -/
def sumFirstResponseO : OllamaResponse :=
  { message := { content := "",
                 tool_calls := some [{ function := { name := "calculate_sum",
                                                     arguments := some sumArgs } }] } }

/-- A mocked Anthropic backend for the `calculate_sum` scenario: the first
request (tools attached) answers with one `tool_use` block, the follow-up
(no tools) answers with plain text. -/
def sumEnvA : AnthropicEnv where
  messagesCreate := fun _ tools =>
    match tools with
    | some _ => .ok sumFirstResponseA
    | none => .ok { content := [.text "The answer is 4"] }
  callTool := fun _ _ => .ok { content := .str "4" }

/-- A mocked Ollama backend for the `calculate_sum` scenario: the first
request (tools attached) answers with one tool call, the follow-up (no tools)
answers with plain text. -/
def sumEnvO : OllamaEnv where
  chat := fun _ tools =>
    match tools with
    | some _ => .ok sumFirstResponseO
    | none => .ok { message := { content := "The answer is 4", tool_calls := none } }
  callTool := fun _ _ => .ok { content := .str "4" }

/-- A mocked Anthropic backend whose follow-up response's first block is a
non-text block and whose first **text** block comes second. -/
def firstBlockEnvA : AnthropicEnv where
  messagesCreate := fun _ tools =>
    match tools with
    | some _ => .ok { content := [.toolUse "get-forecast" none] }
    | none => .ok { content := [.otherBlock, .text "hello"] }
  callTool := fun _ _ => .ok { content := .str "sunny" }

/-- The mixed Anthropic first response: a text block followed by a `tool_use`
block. -/
def mixedResponseA : AnthropicResponse :=
  { content := [.text "note", .toolUse "get-forecast" (some (.obj [("city", .str "LA")]))] }

/-- A mocked Anthropic backend whose first response carries both a text block
and a `tool_use` block; the follow-up answers plain text. -/
def mixedEnvA : AnthropicEnv where
  messagesCreate := fun _ tools =>
    match tools with
    | some _ => .ok mixedResponseA
    | none => .ok { content := [.text "done"] }
  callTool := fun _ _ => .ok { content := .str "sunny" }

/-- A mocked Ollama backend whose first request answers with one tool call and
whose follow-up request (no tools attached) always fails. -/
def apologyEnvO : OllamaEnv where
  chat := fun _ tools =>
    match tools with
    | some _ => .ok sumFirstResponseO
    | none => .error (.providerFailure "backend down")
  callTool := fun _ _ => .ok { content := .str "4" }

/-- A mocked Ollama backend that fails on every chat request. -/
def failingEnvO : OllamaEnv where
  chat := fun _ _ => .error (.providerFailure "backend down")
  callTool := fun _ _ => .ok { content := .str "4" }

/-- The Ollama first response requesting the unknown tool `get-unknown`. -/
def unknownCallResponseO : OllamaResponse :=
  { message := { content := "",
                 tool_calls := some [{ function := { name := "get-unknown",
                                                     arguments := none } }] } }

/-- A mocked Ollama backend that requests the unknown tool `get-unknown` for
every query except `hello`, which it answers with plain text; the bridge
raises on the unknown tool name (as the MCP client does for a tool absent from
the manifest). -/
def unknownToolEnvO : OllamaEnv where
  chat := fun messages _ =>
    if messages = [{ role := "user", content := "hello" }] then
      .ok { message := { content := "Hi!", tool_calls := none } }
    else
      .ok unknownCallResponseO
  callTool := fun _ _ => .error (.toolFailure "Unknown tool get-unknown")

/-- The Gemini first response of the forecast scenario: one function call. -/
def forecastCallG : GeminiFunctionCall :=
  { name := "get-forecast", args := some (.obj [("city", .str "LA")]) }

/-- The Gemini response carrying the single `get-forecast` function call. -/
def forecastResponseG : GeminiResponse :=
  { functionCalls := some [forecastCallG], candidates := none, text := none }

/-- A mocked Gemini backend: on the priming history it requests `get-forecast`,
afterwards it answers plain text; the bridge returns `sunny`. -/
def forecastEnvG : GeminiEnv where
  send := fun history _ =>
    if history = primingHistory then .ok forecastResponseG else .ok plainTextResponseG
  callTool := fun _ _ => .ok { content := .str "sunny" }

/-- C4: for every manifest, each of the three Tool Schema Adapters produces a
declaration list of the same length, in manifest order, preserving every
entry's name and description unchanged; the empty manifest yields the empty
declaration list. -/
theorem toolSchemaAdapter_preserves
    (manifest : List ToolManifestEntry) :
    ((anthropicToolsOf manifest).length = manifest.length ∧
      (anthropicToolsOf manifest).map (·.name) = manifest.map (·.name) ∧
      (anthropicToolsOf manifest).map (·.description) = manifest.map (·.description)) ∧
    ((ollamaToolsOf manifest).length = manifest.length ∧
      (ollamaToolsOf manifest).map (·.function.name) = manifest.map (·.name) ∧
      (ollamaToolsOf manifest).map (·.function.description) = manifest.map (·.description)) ∧
    ((geminiToolsOf manifest).length = manifest.length ∧
      (geminiToolsOf manifest).map (·.name) = manifest.map (·.name) ∧
      (geminiToolsOf manifest).map (·.description) = manifest.map (·.description)) ∧
    (anthropicToolsOf [] = [] ∧ ollamaToolsOf [] = [] ∧ geminiToolsOf [] = []) := by
  refine ⟨⟨?_, ?_, ?_⟩, ⟨?_, ?_, ?_⟩, ⟨?_, ?_, ?_⟩, rfl, rfl, rfl⟩ <;>
    simp [anthropicToolsOf, ollamaToolsOf, geminiToolsOf]

/-- The per-block loop issues at most one LLM request and at most one bridge
invocation per `tool_use` block of the blocks it traverses, whatever the
backend and the bridge answer. -/
theorem anthropicBlocks_counts (env : AnthropicEnv) (blocks : List ContentBlock) :
    ∀ messages acc,
      anthropicLlmCount (anthropicBlocks env blocks messages acc).1 ≤ toolUseCount blocks ∧
      anthropicBridgeCount (anthropicBlocks env blocks messages acc).1 ≤ toolUseCount blocks := by
  induction blocks with
  | nil =>
    intro messages acc
    simp [anthropicBlocks, anthropicLlmCount, anthropicBridgeCount, toolUseCount]
  | cons b rest ih =>
    intro messages acc
    cases b with
    | text t =>
      have h := ih messages (t :: acc)
      simpa [anthropicBlocks, toolUseCount, List.countP_cons] using h
    | otherBlock =>
      have h := ih messages acc
      simpa [anthropicBlocks, toolUseCount, List.countP_cons] using h
    | toolUse name args =>
      cases hct : env.callTool name args with
      | error e =>
        simp [anthropicBlocks, hct, anthropicLlmCount, anthropicBridgeCount, toolUseCount,
          List.countP_cons]
      | ok result =>
        cases hmc : env.messagesCreate
            (messages ++ [{ role := "user", content := result.content }]) none with
        | error e =>
          simp [anthropicBlocks, hct, hmc, anthropicLlmCount, anthropicBridgeCount,
            toolUseCount, List.countP_cons]
        | ok response2 =>
          cases hh : response2.content.head? with
          | none =>
            simp [anthropicBlocks, hct, hmc, hh, anthropicLlmCount, anthropicBridgeCount,
              toolUseCount, List.countP_cons]
          | some firstBlock =>
            cases firstBlock with
            | text t =>
              have h := ih (messages ++ [{ role := "user", content := result.content }])
                (t :: callLabel name args :: acc)
              simp [anthropicBlocks, hct, hmc, hh, anthropicLlmCount, anthropicBridgeCount,
                toolUseCount, List.countP_cons] at h ⊢
              omega
            | otherBlock =>
              have h := ih (messages ++ [{ role := "user", content := result.content }])
                ("" :: callLabel name args :: acc)
              simp [anthropicBlocks, hct, hmc, hh, anthropicLlmCount, anthropicBridgeCount,
                toolUseCount, List.countP_cons] at h ⊢
              omega
            | toolUse n2 a2 =>
              have h := ih (messages ++ [{ role := "user", content := result.content }])
                ("" :: callLabel name args :: acc)
              simp [anthropicBlocks, hct, hmc, hh, anthropicLlmCount, anthropicBridgeCount,
                toolUseCount, List.countP_cons] at h ⊢
              omega

/-- The per-tool-call loop issues at most one LLM request and exactly at most
one bridge invocation per tool call it traverses, whatever the backend and
the bridge answer. -/
theorem ollamaCalls_counts (env : OllamaEnv) (calls : List OllamaToolCall) :
    ∀ messages acc,
      ollamaChatCount (ollamaCalls env calls messages acc).1 ≤ calls.length ∧
      ollamaBridgeCount (ollamaCalls env calls messages acc).1 ≤ calls.length := by
  induction calls with
  | nil =>
    intro messages acc
    simp [ollamaCalls, ollamaChatCount, ollamaBridgeCount]
  | cons call rest ih =>
    intro messages acc
    cases hct : env.callTool call.function.name call.function.arguments with
    | error e =>
      simp [ollamaCalls, hct, ollamaChatCount, ollamaBridgeCount, List.countP_cons]
    | ok result =>
      cases hch : env.chat
          (messages ++ [{ role := "user", content := Json.stringify result.content }]) none with
      | error e =>
        have h := ih (messages ++ [{ role := "user", content := Json.stringify result.content }])
          ("\n" :: ollamaApology :: callLabel call.function.name call.function.arguments :: acc)
        simp [ollamaCalls, hct, hch, ollamaChatCount, ollamaBridgeCount,
          List.countP_cons] at h ⊢
        omega
      | ok response2 =>
        have h := ih (messages ++ [{ role := "user", content := Json.stringify result.content }])
          (response2.message.content :: callLabel call.function.name call.function.arguments :: acc)
        simp [ollamaCalls, hct, hch, ollamaChatCount, ollamaBridgeCount,
          List.countP_cons] at h ⊢
        omega

/-- C9: on both processing paths, with `N` the number of tool-call indicators
in the first model response, a query issues at most `1 + N` model requests and
at most `N` bridge invocations, for every behaviour of the backend and the
bridge — indicators in a follow-up response are never acted upon, so the
tool-call chain has depth at most one. -/
theorem toolCallChain_depth_at_most_one
    (envA : AnthropicEnv) (anthropicTools : List AnthropicTool)
    (envO : OllamaEnv) (ollamaTools : List OllamaTool) (query : String) :
    (∀ responseA,
      envA.messagesCreate [{ role := "user", content := .str query }] (some anthropicTools) =
        .ok responseA →
      anthropicLlmCount (processQueryAnthropic envA anthropicTools query).1 ≤
        1 + toolUseCount responseA.content ∧
      anthropicBridgeCount (processQueryAnthropic envA anthropicTools query).1 ≤
        toolUseCount responseA.content) ∧
    (∀ responseO,
      envO.chat [{ role := "user", content := query }] (some ollamaTools) = .ok responseO →
      ollamaChatCount (processQueryOllama envO ollamaTools query).1 ≤
        1 + ollamaIndicatorCount responseO ∧
      ollamaBridgeCount (processQueryOllama envO ollamaTools query).1 ≤
        ollamaIndicatorCount responseO) := by
  constructor
  · intro responseA hA
    have h := anthropicBlocks_counts envA responseA.content
      [{ role := "user", content := .str query }] []
    simp [processQueryAnthropic, hA, anthropicLlmCount, anthropicBridgeCount,
      List.countP_cons] at h ⊢
    omega
  · intro responseO hO
    cases htc : responseO.message.tool_calls with
    | none =>
      simp [processQueryOllama, hO, htc, ollamaChatCount, ollamaBridgeCount,
        ollamaIndicatorCount, List.countP_cons]
    | some calls =>
      have h := ollamaCalls_counts envO calls [{ role := "user", content := query }] []
      simp [processQueryOllama, hO, htc, ollamaChatCount, ollamaBridgeCount,
        ollamaIndicatorCount, List.countP_cons] at h ⊢
      omega

/-- When a block list contains no `tool_use` block, the per-block loop makes
no outgoing request and accumulates exactly the text blocks, in order. -/
theorem anthropicBlocks_all_text (env : AnthropicEnv) (blocks : List ContentBlock)
    (h : toolUseCount blocks = 0) :
    ∀ messages acc,
      anthropicBlocks env blocks messages acc = ([], .ok (acc.reverse ++ textBlocks blocks)) := by
  induction blocks with
  | nil =>
    intro messages acc
    simp [anthropicBlocks, textBlocks]
  | cons b rest ih =>
    intro messages acc
    cases b with
    | text t =>
      have hrest : toolUseCount rest = 0 := by
        simpa [toolUseCount, List.countP_cons] using h
      rw [anthropicBlocks, ih hrest messages (t :: acc)]
      simp [textBlocks]
    | otherBlock =>
      have hrest : toolUseCount rest = 0 := by
        simpa [toolUseCount, List.countP_cons] using h
      rw [anthropicBlocks, ih hrest messages acc]
      simp [textBlocks]
    | toolUse name args =>
      exact absurd h (by simp [toolUseCount, List.countP_cons])

/-- C7: on each processing path, when the first model response carries no
tool-call indicator, the final output is exactly the extracted text of that
response and the bridge is never invoked (the trace holds the single LLM
request); in particular, with an empty manifest and the plain-text response
`Hi!`, the final output is exactly `Hi!`. -/
theorem noToolCall_passthrough
    (envA : AnthropicEnv) (anthropicTools : List AnthropicTool)
    (envO : OllamaEnv) (ollamaTools : List OllamaTool)
    (envG : GeminiEnv) (query : String) :
    (∀ responseA,
      envA.messagesCreate [{ role := "user", content := .str query }] (some anthropicTools) =
        .ok responseA →
      toolUseCount responseA.content = 0 →
      processQueryAnthropic envA anthropicTools query =
        ([.llm [{ role := "user", content := .str query }] (some anthropicTools)],
          .ok (String.intercalate "\n" (textBlocks responseA.content)))) ∧
    (∀ responseO,
      envO.chat [{ role := "user", content := query }] (some ollamaTools) = .ok responseO →
      responseO.message.tool_calls = none →
      processQueryOllama envO ollamaTools query =
        ([.chat [{ role := "user", content := query }] (some ollamaTools)],
          .ok responseO.message.content)) ∧
    (∀ responseG,
      envG.send primingHistory query = .ok responseG →
      (responseG.functionCalls = none ∨ responseG.functionCalls = some []) →
      (processQueryGemini envG query).1 = [.send primingHistory query] ∧
      (processQueryGemini envG query).2 = (geminiExtractText responseG).map
        (fun t => String.intercalate "\n" [t])) ∧
    (processQueryAnthropic plainTextEnvA [] "hello" =
      ([.llm [{ role := "user", content := .str "hello" }] (some [])], .ok "Hi!")) ∧
    (processQueryOllama plainTextEnvO [] "hello" =
      ([.chat [{ role := "user", content := "hello" }] (some [])], .ok "Hi!")) := by
  refine ⟨?_, ?_, ?_, ?_, ?_⟩
  · intro responseA hA hcount
    rw [processQueryAnthropic]
    simp only [hA]
    rw [anthropicBlocks_all_text envA responseA.content hcount]
    simp [Except.map]
  · intro responseO hO htc
    simp [processQueryOllama, hO, htc]
  · intro responseG hG hfc
    rcases hfc with hfc | hfc <;>
      · refine ⟨by simp [processQueryGemini, hG, hfc], ?_⟩
        simp only [processQueryGemini, hG, hfc]
        cases geminiExtractText responseG <;> simp [Except.map]
  · rfl
  · rfl

/-- Witness for `noToolCall_passthrough` at mocked plain-text backends. -/
theorem noToolCall_passthrough_witness :
    processQueryAnthropic plainTextEnvA [] "hello" =
      ([.llm [{ role := "user", content := .str "hello" }] (some [])], .ok "Hi!") ∧
    processQueryOllama plainTextEnvO [] "hello" =
      ([.chat [{ role := "user", content := "hello" }] (some [])], .ok "Hi!") ∧
    (processQueryGemini plainTextEnvG "hello").1 = [.send primingHistory "hello"] ∧
    (processQueryGemini plainTextEnvG "hello").2 = .ok "Hi!" := by
  have h := noToolCall_passthrough plainTextEnvA [] plainTextEnvO [] plainTextEnvG "hello"
  have h3 := h.2.2.1 plainTextResponseG rfl (Or.inl rfl)
  exact ⟨h.1 { content := [.text "Hi!"] } rfl rfl,
    h.2.1 { message := { content := "Hi!", tool_calls := none } } rfl rfl,
    h3.1, h3.2.trans rfl⟩

/-- Witness for `toolCallChain_depth_at_most_one` at the `calculate_sum`
backends: one indicator in each first response, hence at most two model
requests and at most one bridge invocation. -/
theorem toolCallChain_depth_at_most_one_witness :
    (anthropicLlmCount (processQueryAnthropic sumEnvA [] "what is 2 + 2").1 ≤ 2 ∧
      anthropicBridgeCount (processQueryAnthropic sumEnvA [] "what is 2 + 2").1 ≤ 1) ∧
    (ollamaChatCount (processQueryOllama sumEnvO [] "what is 2 + 2").1 ≤ 2 ∧
      ollamaBridgeCount (processQueryOllama sumEnvO [] "what is 2 + 2").1 ≤ 1) :=
  ⟨(toolCallChain_depth_at_most_one sumEnvA [] sumEnvO [] "what is 2 + 2").1
      sumFirstResponseA rfl,
   (toolCallChain_depth_at_most_one sumEnvA [] sumEnvO [] "what is 2 + 2").2
      sumFirstResponseO rfl⟩

/-- C5 (amended): in Variant A, for a first response consisting of one
`tool_use` block, after the tool resolves exactly one additional model request
is issued, with the tool result appended to the message history and no tool
declarations attached, and the output text taken from the second response is
the text of its **first content block when that block is a text block** (the
empty string otherwise) — exactly two model round-trips for the invocation. -/
theorem variantA_two_roundtrips_per_invocation
    (env : AnthropicEnv) (anthropicTools : List AnthropicTool) (query name : String)
    (args : Option Json) (result : ToolResult) (response2 : AnthropicResponse)
    (firstBlock : ContentBlock) (responseA : AnthropicResponse)
    (h1 : env.messagesCreate [{ role := "user", content := .str query }] (some anthropicTools) =
      .ok responseA)
    (h2 : responseA.content = [.toolUse name args])
    (h3 : env.callTool name args = .ok result)
    (h4 : env.messagesCreate
      ([{ role := "user", content := .str query }] ++
        [{ role := "user", content := result.content }]) none = .ok response2)
    (h5 : response2.content.head? = some firstBlock) :
    processQueryAnthropic env anthropicTools query =
      ([.llm [{ role := "user", content := .str query }] (some anthropicTools),
        .toolCall name args,
        .llm ([{ role := "user", content := .str query }] ++
          [{ role := "user", content := result.content }]) none],
       .ok (callLabel name args ++ "\n" ++
         (match firstBlock with | .text t => t | _ => ""))) := by
  simp only [List.cons_append, List.nil_append] at h4
  cases firstBlock with
  | text t =>
    simp [processQueryAnthropic, h1, h2, anthropicBlocks, h3, h4, h5, Except.map]
    rfl
  | otherBlock =>
    simp [processQueryAnthropic, h1, h2, anthropicBlocks, h3, h4, h5, Except.map]
    calc "\n".intercalate [callLabel name args, ""]
        = callLabel name args ++ "\n" ++ "" := rfl
      _ = callLabel name args ++ "\n" := by simp
  | toolUse n2 a2 =>
    simp [processQueryAnthropic, h1, h2, anthropicBlocks, h3, h4, h5, Except.map]
    calc "\n".intercalate [callLabel name args, ""]
        = callLabel name args ++ "\n" ++ "" := rfl
      _ = callLabel name args ++ "\n" := by simp

/-- Witness for `variantA_two_roundtrips_per_invocation` at the
`calculate_sum` backend. -/
theorem variantA_two_roundtrips_per_invocation_witness :
    processQueryAnthropic sumEnvA [] "what is 2 + 2" =
      ([.llm [{ role := "user", content := .str "what is 2 + 2" }] (some []),
        .toolCall "calculate_sum" (some sumArgs),
        .llm [{ role := "user", content := .str "what is 2 + 2" },
              { role := "user", content := .str "4" }] none],
       .ok (callLabel "calculate_sum" (some sumArgs) ++ "\n" ++ "The answer is 4")) :=
  variantA_two_roundtrips_per_invocation sumEnvA [] "what is 2 + 2" "calculate_sum"
    (some sumArgs) { content := .str "4" } { content := [.text "The answer is 4"] }
    (.text "The answer is 4") sumFirstResponseA rfl rfl rfl rfl rfl

/-- C5 counterexample: the follow-up response's first **text** block is
`hello`, but the code reads `response.content[0]` only, so the pushed final
text is the empty string — the first text block is not taken as the final
output when the first content block is not a text block. -/
theorem variantA_first_text_block_cex :
    textBlocks [ContentBlock.otherBlock, ContentBlock.text "hello"] = ["hello"] ∧
    (processQueryAnthropic firstBlockEnvA [] "weather?").2 =
      .ok ("[Calling tool get-forecast with args undefined]" ++ "\n" ++ "") :=
  ⟨rfl, rfl⟩

/-- C3 counterexample: on a response carrying both a text block and a
`tool_use` block, the Variant-A pass surfaces **both** — the accompanying text
`note` appears in the final output, placed **before** the tool-call
annotation and the post-resolution text, so it is neither suppressed nor
deferred until after tool resolution; the bridge is invoked as well. -/
theorem respond_exactlyOne_branch_cex :
    (processQueryAnthropic mixedEnvA [] "weather?").2 =
      .ok ("note" ++ "\n" ++
        "[Calling tool get-forecast with args \x7b\"city\":\"LA\"\x7d]" ++ "\n" ++ "done") ∧
    anthropicBridgeCount (processQueryAnthropic mixedEnvA [] "weather?").1 = 1 :=
  ⟨rfl, rfl⟩

/-- C3 (amended): the Variant-B pass surfaces exactly one branch per model
response — the response text when `tool_calls` is absent (no bridge
invocation), and only the per-tool-call fragments when `tool_calls` is
present, the first response's text being dropped (the output is given by the
tool-call loop alone, for every value of the response's `content`); the
Variant-A pass, by contrast, surfaces text blocks accompanying `tool_use`
blocks, in block order, alongside the tool-call annotation and the
post-resolution text. -/
theorem respond_branch_surfacing
    (envO : OllamaEnv) (ollamaTools : List OllamaTool)
    (envA : AnthropicEnv) (anthropicTools : List AnthropicTool) (query : String) :
    (∀ responseO,
      envO.chat [{ role := "user", content := query }] (some ollamaTools) = .ok responseO →
      responseO.message.tool_calls = none →
      (processQueryOllama envO ollamaTools query).2 = .ok responseO.message.content ∧
      ollamaBridgeCount (processQueryOllama envO ollamaTools query).1 = 0) ∧
    (∀ responseO calls,
      envO.chat [{ role := "user", content := query }] (some ollamaTools) = .ok responseO →
      responseO.message.tool_calls = some calls →
      processQueryOllama envO ollamaTools query =
        (.chat [{ role := "user", content := query }] (some ollamaTools) ::
          (ollamaCalls envO calls [{ role := "user", content := query }] []).1,
         (ollamaCalls envO calls [{ role := "user", content := query }] []).2.map
           (fun finalText => String.intercalate "\n" finalText))) ∧
    (∀ t name args result response2 f responseA,
      envA.messagesCreate [{ role := "user", content := .str query }] (some anthropicTools) =
        .ok responseA →
      responseA.content = [.text t, .toolUse name args] →
      envA.callTool name args = .ok result →
      envA.messagesCreate
        [{ role := "user", content := .str query },
         { role := "user", content := result.content }] none = .ok response2 →
      response2.content = [.text f] →
      (processQueryAnthropic envA anthropicTools query).2 =
        .ok (t ++ "\n" ++ callLabel name args ++ "\n" ++ f)) := by
  refine ⟨?_, ?_, ?_⟩
  · intro responseO hO htc
    simp [processQueryOllama, hO, htc, ollamaBridgeCount]
  · intro responseO calls hO htc
    simp [processQueryOllama, hO, htc]
  · intro t name args result response2 f responseA h1 h2 h3 h4 h5
    simp [processQueryAnthropic, h1, h2, anthropicBlocks, h3, h4, h5, Except.map]
    rfl

/-- Witness for `respond_branch_surfacing` at the plain-text Ollama backend
and the mixed Anthropic backend. -/
theorem respond_branch_surfacing_witness :
    ((processQueryOllama plainTextEnvO [] "hello").2 = .ok "Hi!" ∧
      ollamaBridgeCount (processQueryOllama plainTextEnvO [] "hello").1 = 0) ∧
    (processQueryAnthropic mixedEnvA [] "weather?").2 =
      .ok ("note" ++ "\n" ++ callLabel "get-forecast" (some (.obj [("city", .str "LA")])) ++
        "\n" ++ "done") :=
  ⟨(respond_branch_surfacing plainTextEnvO [] mixedEnvA [] "hello").1
      { message := { content := "Hi!", tool_calls := none } } rfl rfl,
   (respond_branch_surfacing plainTextEnvO [] mixedEnvA [] "weather?").2.2
      "note" "get-forecast" (some (.obj [("city", .str "LA")]))
      { content := .str "sunny" } { content := [.text "done"] } "done"
      mixedResponseA rfl rfl rfl rfl rfl⟩

/-- When every bridge call succeeds and every follow-up chat request (no tools
attached) fails, the per-tool-call loop still completes, producing for each
tool call its annotation followed by the fixed apology text and a newline, and
invoking the bridge once per call. -/
theorem ollamaCalls_followups_fail (env : OllamaEnv)
    (htool : ∀ name args, ∃ result, env.callTool name args = .ok result)
    (hfollow : ∀ messages, ∃ e, env.chat messages none = .error e)
    (calls : List OllamaToolCall) :
    ∀ messages acc,
      (ollamaCalls env calls messages acc).2 =
        .ok (acc.reverse ++ calls.flatMap (fun c =>
          [callLabel c.function.name c.function.arguments, ollamaApology, "\n"])) ∧
      ollamaBridgeCount (ollamaCalls env calls messages acc).1 = calls.length := by
  induction calls with
  | nil =>
    intro messages acc
    simp [ollamaCalls, ollamaBridgeCount]
  | cons call rest ih =>
    intro messages acc
    obtain ⟨result, hr⟩ := htool call.function.name call.function.arguments
    obtain ⟨e, he⟩ := hfollow
      (messages ++ [{ role := "user", content := Json.stringify result.content }])
    have h := ih (messages ++ [{ role := "user", content := Json.stringify result.content }])
      ("\n" :: ollamaApology :: callLabel call.function.name call.function.arguments :: acc)
    simp [ollamaCalls, hr, he, ollamaBridgeCount, List.countP_cons] at h ⊢
    exact ⟨h.1, h.2⟩

/-- C6: in Variant B, a backend failure during the post-tool follow-up request
is caught and replaced by the fixed apology text while the loop still visits
every tool call; a backend failure during the first (only other) model
exchange of the pass propagates as the pass's error after exactly that one
request, with no retry. -/
theorem variantB_failure_policy (env : OllamaEnv) (ollamaTools : List OllamaTool)
    (query : String) :
    (∀ responseO calls,
      env.chat [{ role := "user", content := query }] (some ollamaTools) = .ok responseO →
      responseO.message.tool_calls = some calls →
      (∀ name args, ∃ result, env.callTool name args = .ok result) →
      (∀ messages, ∃ e, env.chat messages none = .error e) →
      (processQueryOllama env ollamaTools query).2 =
        .ok (String.intercalate "\n" (calls.flatMap (fun c =>
          [callLabel c.function.name c.function.arguments, ollamaApology, "\n"]))) ∧
      ollamaBridgeCount (processQueryOllama env ollamaTools query).1 = calls.length) ∧
    (∀ e,
      env.chat [{ role := "user", content := query }] (some ollamaTools) = .error e →
      processQueryOllama env ollamaTools query =
        ([.chat [{ role := "user", content := query }] (some ollamaTools)], .error e)) := by
  constructor
  · intro responseO calls hO htc htool hfollow
    have h := ollamaCalls_followups_fail env htool hfollow calls
      [{ role := "user", content := query }] []
    have h2 := h.2
    simp [ollamaBridgeCount] at h2
    simp [processQueryOllama, hO, htc, h.1, Except.map, ollamaBridgeCount]
    exact h2
  · intro e hO
    simp [processQueryOllama, hO]

/-- Witness for `variantB_failure_policy`: the follow-up failure yields the
apology output with the loop completed, the first-exchange failure yields the
propagated error after one request. -/
theorem variantB_failure_policy_witness :
    ((processQueryOllama apologyEnvO [] "what is 2 + 2").2 =
      .ok (String.intercalate "\n"
        [callLabel "calculate_sum" (some sumArgs), ollamaApology, "\n"]) ∧
     ollamaBridgeCount (processQueryOllama apologyEnvO [] "what is 2 + 2").1 = 1) ∧
    processQueryOllama failingEnvO [] "what is 2 + 2" =
      ([.chat [{ role := "user", content := "what is 2 + 2" }] (some [])],
        .error (.providerFailure "backend down")) :=
  ⟨(variantB_failure_policy apologyEnvO [] "what is 2 + 2").1 sumFirstResponseO
      [{ function := { name := "calculate_sum", arguments := some sumArgs } }]
      rfl rfl (fun _ _ => ⟨{ content := .str "4" }, rfl⟩)
      (fun _ => ⟨.providerFailure "backend down", rfl⟩),
   (variantB_failure_policy failingEnvO [] "what is 2 + 2").2
      (.providerFailure "backend down") rfl⟩

/-- C1 counterexample: an unknown-tool failure raised by the bridge during the
first query propagates out of the chat loop — the session run over the input
lines `use the tool`, `hello` ends with the error, produces **no** output for
the failing query, and never processes the follow-up query `hello`, even
though processing it alone would have succeeded. -/
theorem perQueryError_kills_session_cex :
    chatLoopTwoProvider (some "OLLAMA") (fun _ => .ok "")
        (fun q => (processQueryOllama unknownToolEnvO [] q).2)
        ["use the tool", "hello"] =
      ([], some (.toolFailure "Unknown tool get-unknown")) ∧
    (processQueryOllama unknownToolEnvO [] "hello").2 = .ok "Hi!" := by
  constructor
  · rfl
  · rfl

/-- C1 (amended): a per-query processing error is **not** caught at the chat
loop: it propagates out of the `while` loop, terminating the interactive
session with that error — the failing query contributes no output and the
remaining input lines are never processed.  This holds for the Ollama-only
client's loop and for the two-provider client's loop, whatever the provider
selector.  (Only the Variant-B follow-up failure is caught, inside the
processing pass itself — `variantB_failure_policy`.) -/
theorem perQueryError_propagates
    (process anthropicProcess ollamaProcess : String → Except Err String)
    (provider : Option String) (line : String) (rest : List String) (e : Err)
    (hq : jsToLower line ≠ "quit") :
    (process line = .error e →
      chatLoop process (line :: rest) = ([], some e)) ∧
    ((if provider = some "ANTHROPIC" then anthropicProcess line
      else ollamaProcess line) = .error e →
      chatLoopTwoProvider provider anthropicProcess ollamaProcess (line :: rest) =
        ([], some e)) := by
  constructor
  · intro h
    simp [chatLoop, hq, h]
  · intro h
    simp [chatLoopTwoProvider, hq, h]

/-- Witness for `perQueryError_propagates` at a failing processing function. -/
theorem perQueryError_propagates_witness :
    chatLoop (fun _ => .error .typeError) ["boom", "hello"] = ([], some .typeError) ∧
    chatLoopTwoProvider none (fun _ => .ok "a") (fun _ => .error .typeError)
      ["boom", "hello"] = ([], some .typeError) := by
  have h := perQueryError_propagates (fun _ => .error Err.typeError) (fun _ => .ok "a")
    (fun _ => .error Err.typeError) none "boom" ["hello"] Err.typeError (by decide)
  exact ⟨h.1 rfl, h.2 rfl⟩

/-- C2 counterexample: two sequential queries processed by the generative-chat
variant.  The first query succeeds, yet the second query's (only) model
exchange carries exactly the fixed priming history — `processQueryGemini`
creates a fresh chat session per query, so the first query's user turn is not
in the context of the second query's exchange; moreover the priming history
seeds **four** turns, not two. -/
theorem gemini_persistent_session_cex :
    (processQueryGemini plainTextEnvG "first question").2 = .ok "Hi!" ∧
    (processQueryGemini plainTextEnvG "second question").1 =
      [.send primingHistory "second question"] ∧
    geminiUserTurn "first question" ∉ primingHistory ∧
    primingHistory.length = 4 := by
  refine ⟨rfl, rfl, by decide, rfl⟩

/-- C2 (amended): the generative-chat variant creates a **fresh** chat session
for every query, seeded with the four fixed priming turns: every query's first
model exchange carries exactly `primingHistory`, independently of any earlier
query; only **within** one query does the session own context — a resolved
function call is sent back into the same session, whose history has
accumulated that query's turns. -/
theorem gemini_fresh_session_per_query (env : GeminiEnv) (query : String) :
    (processQueryGemini env query).1.head? = some (.send primingHistory query) ∧
    primingHistory.length = 4 ∧
    (∀ response call result,
      env.send primingHistory query = .ok response →
      response.functionCalls = some [call] →
      env.callTool call.name call.args = .ok result →
      (processQueryGemini env query).1 =
        [.send primingHistory query,
         .toolCall call.name call.args,
         .send (primingHistory ++ [geminiUserTurn query, geminiModelTurn response])
           (Json.stringify result.content)]) := by
  refine ⟨?_, rfl, ?_⟩
  · cases h : env.send primingHistory query with
    | error e => simp [processQueryGemini, h]
    | ok response => simp [processQueryGemini, h]
  · intro response call result hs hf hc
    cases h2 : env.send (primingHistory ++ [geminiUserTurn query, geminiModelTurn response])
        (Json.stringify result.content) with
    | error e => simp [processQueryGemini, hs, hf, geminiCalls, hc, h2]
    | ok response2 => simp [processQueryGemini, hs, hf, geminiCalls, hc, h2]

/-- Witness for `gemini_fresh_session_per_query` at the forecast backend. -/
theorem gemini_fresh_session_per_query_witness :
    (processQueryGemini forecastEnvG "weather?").1 =
      [.send primingHistory "weather?",
       .toolCall "get-forecast" (some (.obj [("city", .str "LA")])),
       .send (primingHistory ++ [geminiUserTurn "weather?", geminiModelTurn forecastResponseG])
         "\"sunny\""] :=
  (gemini_fresh_session_per_query forecastEnvG "weather?").2.2
    forecastResponseG forecastCallG { content := .str "sunny" } rfl rfl rfl

/-- C8: session construction fails fast exactly when a required
credential/model identifier is missing (unset or empty) for the selected
provider.  For the three-provider client's constructor the recognized
selectors are the three enumerated values `ANTHROPIC` (requiring
`ANTHROPIC_API_KEY` and `ANTHROPIC_MODEL`), `OLLAMA` (requiring
`OLLAMA_MODEL`) and `GEMINI` (requiring `GEMINI_API_KEY`); only the selected
provider's identifiers are required, and any other selector value passes.
The two-provider client's module-level checks implement the same policy for
its two selectable providers. -/
theorem config_failfast_iff (cfg : EnvConfig) :
    ((∃ msg, constructorConfigCheck cfg = .error msg) ↔
      ((cfg.llmProvider = some "ANTHROPIC" ∧
          (isFalsyStr cfg.anthropicApiKey = true ∨ isFalsyStr cfg.anthropicModel = true)) ∨
       (cfg.llmProvider = some "OLLAMA" ∧ isFalsyStr cfg.ollamaModel = true) ∨
       (cfg.llmProvider = some "GEMINI" ∧ isFalsyStr cfg.geminiApiKey = true))) ∧
    ((∃ msg, moduleConfigCheck cfg = .error msg) ↔
      ((cfg.llmProvider = some "ANTHROPIC" ∧
          (isFalsyStr cfg.anthropicApiKey = true ∨ isFalsyStr cfg.anthropicModel = true)) ∨
       (cfg.llmProvider = some "OLLAMA" ∧ isFalsyStr cfg.ollamaModel = true))) := by
  constructor
  · unfold constructorConfigCheck
    (repeat' split) <;> simp_all [not_or]
  · unfold moduleConfigCheck
    (repeat' split) <;> simp_all [not_or]

/-- C10: in the two-provider client, for every provider selector other than
`ANTHROPIC` — the generative-chat identifier, an unrecognized value, or an
unset selector — the chat loop behaves exactly as the single-path loop over
the Ollama processing function: every query is dispatched to the Ollama path,
with no third path and no validation of the selector at dispatch time. -/
theorem dispatch_defaults_to_ollama (provider : Option String)
    (anthropicProcess ollamaProcess : String → Except Err String)
    (inputs : List String) (h : provider ≠ some "ANTHROPIC") :
    chatLoopTwoProvider provider anthropicProcess ollamaProcess inputs =
      chatLoop ollamaProcess inputs := by
  induction inputs with
  | nil => rfl
  | cons line rest ih =>
    rw [chatLoopTwoProvider, chatLoop, if_neg h, ih]

/-- Witness for `dispatch_defaults_to_ollama` at the selectors `GEMINI` and
unset. -/
theorem dispatch_defaults_to_ollama_witness :
    chatLoopTwoProvider (some "GEMINI") (fun _ => .ok "anthropic")
        (fun _ => .ok "ollama") ["hi"] = (["ollama"], none) ∧
    chatLoopTwoProvider none (fun _ => .ok "anthropic")
        (fun _ => .ok "ollama") ["hi"] = (["ollama"], none) :=
  ⟨(dispatch_defaults_to_ollama (some "GEMINI") (fun _ => .ok "anthropic")
      (fun _ => .ok "ollama") ["hi"] (by simp)).trans rfl,
   (dispatch_defaults_to_ollama none (fun _ => .ok "anthropic")
      (fun _ => .ok "ollama") ["hi"] (by simp)).trans rfl⟩
